import Mathlib

/-!
Shallow embedding of the rubbish-bin simulation core
(src/simulated_city/rubbish_sim.py) and of the consumer-side parsing
helpers (src/simulated_city/dashboard_data.py, scripts/dashboard/
bin_dashboard.py), with theorems settling the specification claims.

Modelling conventions:
- Python integers are Lean Int; Python floor division (//) is Int.fdiv.
- Python floats that only carry probabilities or coordinates are Lean Rat.
- The random source random.Random is modelled as an infinite stream of
  uniform values together with a cursor; each primitive consumption
  (rng.random() as well as rng.choice(...)) advances the cursor by one.
- Raising an exception is modelled with Except / Option.
- Timestamps are modelled as integers (minutes); the ISO rendering of a
  timestamp is irrelevant to every claim treated here.
-/

namespace RubbishSim

/-- Model of random.Random: an infinite stream of uniform draws in [0,1)
together with a cursor position. -/
structure Rng where
  stream : Nat → Rat
  pos : Nat

/-- Model of rng.random(): return the next uniform value and advance. -/
def Rng.random (rng : Rng) : Rat × Rng :=
  (rng.stream rng.pos, ⟨rng.stream, rng.pos + 1⟩)

/-- Model of the index selection performed by rng.choice on a sequence of
length n: consume one uniform value and map it to an index below n. -/
def Rng.choiceIdx (rng : Rng) (n : Nat) : Nat × Rng :=
  let u := rng.random
  (min (n - 1) (Int.toNat (Rat.floor (u.1 * n))), u.2)

/-- Python: class ContainerState (rubbish_sim.py). -/
structure ContainerState where
  fill_pct : Int
deriving DecidableEq, Repr

/-- Python: ContainerState.is_full, i.e. fill_pct >= 100. -/
def ContainerState.is_full (c : ContainerState) : Bool :=
  decide (100 ≤ c.fill_pct)

/-- Python: the ContainerName literal type left | center | right. -/
inductive ContainerName
  | left
  | center
  | right
deriving DecidableEq, Repr

/-- Python: class LocationState (rubbish_sim.py). -/
structure LocationState where
  location_id : String
  lat : Rat
  lon : Rat
  left : ContainerState
  center : ContainerState
  right : ContainerState
deriving DecidableEq, Repr

/-- Select the container of a location by name (the dict literal built in
choose_container and the attribute access in step_location). -/
def LocationState.container (loc : LocationState) : ContainerName → ContainerState
  | .left => loc.left
  | .center => loc.center
  | .right => loc.right

/-- Replace one named container of a location, keeping everything else
(the LocationState reconstruction performed in step_location). -/
def LocationState.setContainer (loc : LocationState) : ContainerName → ContainerState → LocationState
  | .left, s => { loc with left := s }
  | .center, s => { loc with center := s }
  | .right, s => { loc with right := s }

/-- Python: class DepositResult (rubbish_sim.py). -/
structure DepositResult where
  deposited : Bool
  container : Option ContainerName
  old_fill_pct : Option Int
  new_fill_pct : Option Int
deriving DecidableEq, Repr

/-- Python: class SimulationLocationConfig (config.py). -/
structure SimulationLocationConfig where
  location_id : String
  lat : Rat
  lon : Rat
deriving DecidableEq, Repr

/-- Python: class SimulationConfig (config.py). -/
structure SimulationConfig where
  timestep_minutes : Int
  arrival_prob : Rat
  bag_fill_delta_pct : Int
  status_boundary_pct : Int
  publish_every_deposit : Bool
  step_delay_s : Rat
  start_time : Option Int
  seed : Option Int
  locations : List SimulationLocationConfig

/-- Python: boundaries_crossed (rubbish_sim.py, lines 249-268). -/
def boundaries_crossed (old_fill_pct new_fill_pct : Int) (boundary_pct : Int) :
    Except String (List Int) :=
  if boundary_pct ≤ 0 then
    .error ("boundary_pct must be > 0")
  else
    let old_bucket := Int.fdiv old_fill_pct boundary_pct
    let new_bucket := Int.fdiv new_fill_pct boundary_pct
    if new_bucket ≤ old_bucket then
      .ok []
    else
      .ok ((List.range (new_bucket - old_bucket).toNat).map
        (fun (i : Nat) => (old_bucket + 1 + (i : Int)) * boundary_pct))

/-- Python: _pick_preferred_container (rubbish_sim.py): one uniform draw,
mapped through the 25/50/25 thresholds. -/
def _pick_preferred_container (rng : Rng) : ContainerName × Rng :=
  let u := rng.random
  if u.1 < (1 : Rat) / 4 then (.left, u.2)
  else if u.1 < (3 : Rat) / 4 then (.center, u.2)
  else (.right, u.2)

/-- The containers dict built in choose_container, as a lookup by name
(insertion order left, center, right). -/
def container_by_name (left center right : ContainerState) : ContainerName → ContainerState
  | .left => left
  | .center => center
  | .right => right

/-- The available list comprehension of choose_container: the non-full
containers in dict iteration order left, center, right. -/
def available_containers (left center right : ContainerState) : List ContainerName :=
  [ContainerName.left, ContainerName.center, ContainerName.right].filter
    (fun n => !(container_by_name left center right n).is_full)

/-- Python: choose_container (rubbish_sim.py, lines 282-306). -/
def choose_container (rng : Rng) (left center right : ContainerState) :
    Option ContainerName × Rng :=
  let pr := _pick_preferred_container rng
  if (container_by_name left center right pr.1).is_full = false then (some pr.1, pr.2)
  else
    let available := available_containers left center right
    if available.isEmpty then (none, pr.2)
    else
      let ci := pr.2.choiceIdx available.length
      (some (available.getD ci.1 ContainerName.left), ci.2)

/-- Python: _apply_deposit (rubbish_sim.py, lines 309-312). -/
def _apply_deposit (container : ContainerState) (delta_pct : Int) :
    ContainerState × Int × Int :=
  let old_fill := container.fill_pct
  let new_fill := min 100 (old_fill + delta_pct)
  (⟨new_fill⟩, old_fill, new_fill)

/-- Python: step_location (rubbish_sim.py, lines 315-364). -/
def step_location (rng : Rng) (sim_cfg : SimulationConfig) (location : LocationState) :
    (LocationState × DepositResult) × Rng :=
  let u := rng.random
  let arrived : Bool := decide (u.1 < sim_cfg.arrival_prob)
  if arrived = false then
    ((location, ⟨false, none, none, none⟩), u.2)
  else
    match choose_container u.2 location.left location.center location.right with
    | (none, rng2) => ((location, ⟨false, none, none, none⟩), rng2)
    | (some chosen, rng2) =>
      let ad := _apply_deposit (location.container chosen) sim_cfg.bag_fill_delta_pct
      ((location.setContainer chosen ad.1,
        ⟨true, some chosen, some ad.2.1, some ad.2.2⟩), rng2)

/-- Python: _initial_location_state (rubbish_sim.py, lines 367-375). -/
def _initial_location_state (loc : SimulationLocationConfig) : LocationState :=
  { location_id := loc.location_id
    lat := loc.lat
    lon := loc.lon
    left := ⟨0⟩
    center := ⟨0⟩
    right := ⟨0⟩ }

/-- The externally observable content of one published status message
(the fields of make_status_payload, with the timestamp kept as the
integer it was computed from rather than its ISO rendering). -/
structure StatusEvent where
  ts : Int
  location_id : String
  lat : Rat
  lon : Rat
  container : ContainerName
  fill_pct : Int
  timestep_index : Int
  event : String
deriving DecidableEq, Repr

/-- Python: the field set assembled by make_status_payload
(rubbish_sim.py, lines 225-246). -/
def make_status_event (ts : Int) (location : LocationState) (container : ContainerName)
    (fill_pct : Int) (timestep_index : Int) (event : String) : StatusEvent :=
  { ts := ts
    location_id := location.location_id
    lat := location.lat
    lon := location.lon
    container := container
    fill_pct := fill_pct
    timestep_index := timestep_index
    event := event }

/-- Python: the per-location publish decision of run_simulation
(rubbish_sim.py, lines 445-474): nothing when no deposit happened;
one event per deposit when publish_every_deposit; otherwise one event
per crossed boundary, each carrying the final new fill value. The
asserts of the source are modelled as errors. -/
def publish_for_location (sim_cfg : SimulationConfig) (updated : LocationState)
    (deposit : DepositResult) (ts timestep_index : Int) :
    Except String (List StatusEvent) :=
  if deposit.deposited = false then .ok []
  else
    match deposit.container, deposit.old_fill_pct, deposit.new_fill_pct with
    | some c, some old_fill, some new_fill =>
      if sim_cfg.publish_every_deposit then
        .ok [make_status_event ts updated c new_fill timestep_index ("status")]
      else do
        let bs ← boundaries_crossed old_fill new_fill sim_cfg.status_boundary_pct
        .ok (bs.map (fun _ => make_status_event ts updated c new_fill timestep_index ("status")))
    | _, _, _ => .error ("assertion failed")

/-- Python: the inner location loop of one timestep of run_simulation
(rubbish_sim.py, lines 441-474): step every location in order, replace
its state, and collect the events published for it. -/
def step_locations (sim_cfg : SimulationConfig) (ts timestep_index : Int) :
    List LocationState → Rng → Except String (List LocationState × List StatusEvent × Rng)
  | [], rng => .ok ([], [], rng)
  | loc :: rest, rng => do
    let sr := step_location rng sim_cfg loc
    let updated := sr.1.1
    let deposit := sr.1.2
    let evs ← publish_for_location sim_cfg updated deposit ts timestep_index
    let tail ← step_locations sim_cfg ts timestep_index rest sr.2
    .ok (updated :: tail.1, evs ++ tail.2.1, tail.2.2)

/-- Python: the timestep loop of run_simulation (rubbish_sim.py, lines
438-474): iterate the remaining number of timesteps, computing each
timestamp from the start timestamp. -/
def run_steps (sim_cfg : SimulationConfig) (start_ts : Int) :
    Nat → Int → List LocationState → Rng → Except String (List StatusEvent)
  | 0, _, _, _ => .ok []
  | n + 1, timestep_index, locs, rng => do
    let ts := start_ts + sim_cfg.timestep_minutes * timestep_index
    let st ← step_locations sim_cfg ts timestep_index locs rng
    let rest ← run_steps sim_cfg start_ts n (timestep_index + 1) st.1 st.2.2
    .ok (st.2.1 ++ rest)

/-- The init events published before the timestep loop (rubbish_sim.py,
lines 427-436): one per container per location, all at the start
timestamp, with timestep_index -1. -/
def init_events (start_ts : Int) (locations : List LocationState) : List StatusEvent :=
  locations.flatMap (fun loc =>
    [ContainerName.left, ContainerName.center, ContainerName.right].map (fun c =>
      make_status_event start_ts loc c (loc.container c).fill_pct (-1) ("init")))

/-- Python: run_simulation (rubbish_sim.py, lines 378-487) restricted to
its observable event sequence. The rng argument is the draw stream of
the generator seeded once at line 396; now is the ambient wall clock
used only when no fixed start_time is configured. -/
def run_simulation (sim_cfg : SimulationConfig) (steps : Int) (rng : Rng) (now : Int) :
    Except String (List StatusEvent) :=
  if steps ≤ 0 then .error ("steps must be > 0")
  else if sim_cfg.locations.isEmpty then .error ("No simulation configured")
  else
    let start_ts := sim_cfg.start_time.getD now
    let locations := sim_cfg.locations.map _initial_location_state
    do
      let evs ← run_steps sim_cfg start_ts steps.toNat 0 locations rng
      .ok (init_events start_ts locations ++ evs)

/-- Model of one sink held by TeeStatusPublisher: whether publishing a
given event raises in this sink, and the events it has received so far.
The concrete sinks of the source (stdout, JSONL file, MQTT) differ only
in where a received event goes, which this log abstracts. -/
structure Sink where
  fails : StatusEvent → Bool
  received : List StatusEvent

/-- A successful publish call on one sink: the event is appended to what
the sink has received, unaltered. -/
def sink_receive (s : Sink) (e : StatusEvent) : Sink :=
  { s with received := s.received ++ [e] }

/-- Python: TeeStatusPublisher.publish_status (rubbish_sim.py, lines
175-193): forward the event to each sink in order. An exception in one
sink propagates out of the for loop: the failing sink and every later
sink keep their state, and the Bool result records that the call
raised. -/
def tee_publish_status : List Sink → StatusEvent → List Sink × Bool
  | [], _ => ([], false)
  | s :: rest, e =>
    if s.fails e then (s :: rest, true)
    else
      let tail := tee_publish_status rest e
      (sink_receive s e :: tail.1, tail.2)

/-- Model of a JSON value as parsed by json.loads. For values inside
arrays and objects the exact Python repr text produced by str() is
irrelevant to every claim treated here and is abstracted. -/
inductive JValue
  | jnull
  | jbool (b : Bool)
  | jint (n : Int)
  | jstr (s : String)
  | jarr
  | jobj (fields : List (String × JValue))

/-- Model of Python str() applied to a JSON value (the coercions
performed by event_from_payload on location_id and container). -/
def pyStr : JValue → String
  | .jnull => "None"
  | .jbool true => "True"
  | .jbool false => "False"
  | .jint n => toString n
  | .jstr s => s
  | .jarr => "[...]"
  | .jobj _ => "\x7b...\x7d"

/-- Model of Python int() applied to a JSON value: succeeds on bools,
integers and integer-literal strings, raises (none) otherwise. -/
def pyInt : JValue → Option Int
  | .jbool b => some (if b then 1 else 0)
  | .jint n => some n
  | .jstr s => s.toInt?
  | _ => none

/-- Model of Python truthiness of a JSON value (the event or "status"
fallback in event_from_payload). -/
def pyTruthy : JValue → Bool
  | .jnull => false
  | .jbool b => b
  | .jint n => decide (n ≠ 0)
  | .jstr s => decide (s ≠ "")
  | .jarr => true
  | .jobj fs => !fs.isEmpty

/-- Python: parse_ts (dashboard_data.py, lines 32-43) on a JSON value:
only strings are accepted, a trailing Z is rewritten to +00:00, and the
result is handed to datetime.fromisoformat, modelled by the fromiso
argument (none models a raised ValueError). -/
def parse_ts (fromiso : String → Option Int) : JValue → Option Int
  | .jstr s =>
    fromiso (if s.endsWith ("Z") then s.dropRight 1 ++ "+00:00" else s)
  | _ => none

/-- The consumer-side event record (dashboard_data.py, StatusEvent). -/
structure ParsedEvent where
  ts : Int
  location_id : String
  container : String
  fill_pct : Int
  timestep_index : Int
  event : String
deriving DecidableEq, Repr

/-- Python: event_from_payload (dashboard_data.py, lines 50-68). A
raised KeyError, ValueError or TypeError is modelled as none; the
timestep_index conversion catches its own errors and falls back to 0,
and a missing or falsy event field falls back to "status". -/
def event_from_payload (fromiso : String → Option Int)
    (payload : List (String × JValue)) : Option ParsedEvent := do
  let tsv ← payload.lookup ("ts")
  let ts ← parse_ts fromiso tsv
  let lidv ← payload.lookup ("location_id")
  let cv ← payload.lookup ("container")
  let fv ← payload.lookup ("fill_pct")
  let fill_pct ← pyInt fv
  let timestep_index :=
    match payload.lookup ("timestep_index") with
    | none => 0
    | some v => (pyInt v).getD 0
  let event :=
    match payload.lookup ("event") with
    | none => "status"
    | some v => if pyTruthy v then pyStr v else ("status")
  some
    { ts := ts
      location_id := pyStr lidv
      container := pyStr cv
      fill_pct := fill_pct
      timestep_index := timestep_index
      event := event }

/-- One line of a JSONL log as seen by read_jsonl_incremental: blank,
not valid JSON (json.loads raises), or a parsed JSON value. -/
inductive RawLine
  | blank
  | malformed
  | parsed (v : JValue)

/-- Python: the per-line filter of read_jsonl_incremental
(dashboard_data.py, lines 101-111): keep obj["payload"] exactly when
the line parses to a dict that has a dict field "payload". -/
def line_payload : RawLine → Option (List (String × JValue))
  | .blank => none
  | .malformed => none
  | .parsed v =>
    match v with
    | .jobj fields =>
      match fields.lookup ("payload") with
      | some (.jobj p) => some p
      | _ => none
    | _ => none

/-- Python: read_jsonl_incremental (dashboard_data.py, lines 90-113)
restricted to the payload list it returns. -/
def read_jsonl_payloads (lines : List RawLine) : List (List (String × JValue)) :=
  lines.filterMap line_payload

/-- Python: the consumer read loop (bin_dashboard.py, lines 136-147):
read the payloads and keep each one whose event_from_payload call does
not raise, skipping the others and continuing. -/
def consume_log (fromiso : String → Option Int) (lines : List RawLine) :
    List ParsedEvent :=
  (read_jsonl_payloads lines).filterMap (event_from_payload fromiso)

/-! ## Theorems -/

/-- Characterization of boundaries_crossed for a positive boundary. -/
theorem boundaries_crossed_pos (old_fill new_fill b : Int) (hb : 0 < b) :
    boundaries_crossed old_fill new_fill b =
      .ok (if new_fill.fdiv b ≤ old_fill.fdiv b then []
        else (List.range (new_fill.fdiv b - old_fill.fdiv b).toNat).map
          (fun (i : Nat) => (old_fill.fdiv b + 1 + (i : Int)) * b)) := by
  unfold boundaries_crossed
  rw [if_neg (not_le.mpr hb)]
  by_cases h : new_fill.fdiv b ≤ old_fill.fdiv b
  · rw [if_pos h, if_pos h]
  · rw [if_neg h, if_neg h]

/-- C1: for boundary_pct > 0 and 0 <= old <= new <= 100,
boundaries_crossed returns exactly the list of boundary multiples from
boundary_pct*(old_bucket+1) up to boundary_pct*new_bucket; the list is
strictly increasing, every element is a multiple of boundary_pct, every
element is > old and <= new, and the list is empty iff the two buckets
coincide. -/
theorem boundaries_crossed_spec (old_fill new_fill b : Int)
    (hb : 0 < b) (h0 : 0 ≤ old_fill) (h1 : old_fill ≤ new_fill) (h2 : new_fill ≤ 100) :
    ∃ l, boundaries_crossed old_fill new_fill b = .ok l ∧
      l = (List.range (new_fill.fdiv b - old_fill.fdiv b).toNat).map
        (fun (i : Nat) => (old_fill.fdiv b + 1 + (i : Int)) * b) ∧
      l.Pairwise (fun x y => x < y) ∧
      (∀ x ∈ l, b ∣ x ∧ old_fill < x ∧ x ≤ new_fill) ∧
      (l = [] ↔ old_fill.fdiv b = new_fill.fdiv b) := by
  have hbne : b ≠ 0 := ne_of_gt hb
  have hb0 : (0 : Int) ≤ b := le_of_lt hb
  have hfo : old_fill.fdiv b = old_fill / b := Int.fdiv_eq_ediv old_fill hb0
  have hfn : new_fill.fdiv b = new_fill / b := Int.fdiv_eq_ediv new_fill hb0
  have hmono : old_fill.fdiv b ≤ new_fill.fdiv b := by
    rw [hfo, hfn]; exact Int.ediv_le_ediv hb h1
  refine ⟨(List.range (new_fill.fdiv b - old_fill.fdiv b).toNat).map
    (fun (i : Nat) => (old_fill.fdiv b + 1 + (i : Int)) * b), ?_, rfl, ?_, ?_, ?_⟩
  · rw [boundaries_crossed_pos old_fill new_fill b hb]
    by_cases h : new_fill.fdiv b ≤ old_fill.fdiv b
    · have heq : new_fill.fdiv b = old_fill.fdiv b := le_antisymm h hmono
      rw [if_pos h, heq]
      simp
    · rw [if_neg h]
  · refine List.Pairwise.map _ ?_ (List.pairwise_lt_range _)
    intro i j hij
    have hij' : (i : Int) < (j : Int) := by exact_mod_cast hij
    have hlt : old_fill.fdiv b + 1 + (i : Int) < old_fill.fdiv b + 1 + (j : Int) := by linarith
    exact mul_lt_mul_of_pos_right hlt hb
  · intro x hx
    rcases List.mem_map.mp hx with ⟨i, hi, hxi⟩
    have hilt : (i : Int) < new_fill.fdiv b - old_fill.fdiv b := by
      have := List.mem_range.mp hi
      exact Int.lt_toNat.mp this
    refine ⟨?_, ?_, ?_⟩
    · rw [← hxi]; exact dvd_mul_left b _
    · rw [← hxi]
      have hstep : old_fill < (old_fill.fdiv b + 1) * b := by
        rw [hfo]; exact Int.lt_ediv_add_one_mul_self old_fill hb
      have hle : (old_fill.fdiv b + 1) * b ≤ (old_fill.fdiv b + 1 + (i : Int)) * b := by
        have : old_fill.fdiv b + 1 ≤ old_fill.fdiv b + 1 + (i : Int) := by
          have : (0 : Int) ≤ (i : Int) := Int.natCast_nonneg i
          linarith
        exact mul_le_mul_of_nonneg_right this hb0
      linarith
    · rw [← hxi]
      have hle : old_fill.fdiv b + 1 + (i : Int) ≤ new_fill.fdiv b := by linarith
      have h1' : (old_fill.fdiv b + 1 + (i : Int)) * b ≤ new_fill.fdiv b * b :=
        mul_le_mul_of_nonneg_right hle hb0
      have h2' : new_fill.fdiv b * b ≤ new_fill := by
        rw [hfn]; exact Int.ediv_mul_le new_fill hbne
      linarith
  · rw [List.map_eq_nil_iff, List.range_eq_nil, Int.toNat_eq_zero]
    constructor
    · intro h; omega
    · intro h; omega

/-- Witness for boundaries_crossed_spec at old=19, new=31, boundary=10. -/
theorem boundaries_crossed_spec_witness :
    ∃ l, boundaries_crossed 19 31 10 = .ok l ∧
      l = (List.range ((31 : Int).fdiv 10 - (19 : Int).fdiv 10).toNat).map
        (fun (i : Nat) => ((19 : Int).fdiv 10 + 1 + (i : Int)) * 10) ∧
      l.Pairwise (fun x y => x < y) ∧
      (∀ x ∈ l, (10 : Int) ∣ x ∧ (19 : Int) < x ∧ x ≤ 31) ∧
      (l = [] ↔ (19 : Int).fdiv 10 = (31 : Int).fdiv 10) :=
  boundaries_crossed_spec 19 31 10 (by decide) (by decide) (by decide) (by decide)

/-- C8: boundaries_crossed raises exactly when the boundary is not
positive, and returns a value for every positive boundary. -/
theorem boundaries_crossed_error_iff (old_fill new_fill b : Int) :
    (b ≤ 0 → boundaries_crossed old_fill new_fill b = .error ("boundary_pct must be > 0")) ∧
    (0 < b → ∃ l, boundaries_crossed old_fill new_fill b = .ok l) := by
  constructor
  · intro h
    unfold boundaries_crossed
    rw [if_pos h]
  · intro h
    rw [boundaries_crossed_pos old_fill new_fill b h]
    exact ⟨_, rfl⟩

/-- Witness for boundaries_crossed_error_iff at boundary 0 and 10. -/
theorem boundaries_crossed_error_iff_witness :
    boundaries_crossed 5 7 0 = .error ("boundary_pct must be > 0") ∧
    ∃ l, boundaries_crossed 5 7 10 = .ok l :=
  ⟨(boundaries_crossed_error_iff 5 7 0).1 (by decide),
   (boundaries_crossed_error_iff 5 7 10).2 (by decide)⟩

/-- All-full characterization of the available list. -/
theorem available_containers_eq_nil_iff (l c r : ContainerState) :
    available_containers l c r = [] ↔
      (l.is_full = true ∧ c.is_full = true ∧ r.is_full = true) := by
  simp only [available_containers, List.filter_eq_nil_iff]
  constructor
  · intro h
    refine ⟨?_, ?_, ?_⟩
    · have := h ContainerName.left (by simp)
      simpa [container_by_name] using this
    · have := h ContainerName.center (by simp)
      simpa [container_by_name] using this
    · have := h ContainerName.right (by simp)
      simpa [container_by_name] using this
  · intro h n hn
    rcases h with ⟨hl, hc, hr⟩
    rcases n with _ | _ | _ <;> simp [container_by_name, hl, hc, hr]

/-- A container drawn from a non-empty available list is available. -/
theorem available_getD_mem (l c r : ContainerState) (idx : Nat)
    (h : available_containers l c r ≠ []) :
    (available_containers l c r).getD (min ((available_containers l c r).length - 1) idx)
        ContainerName.left ∈ available_containers l c r := by
  have hlen : 0 < (available_containers l c r).length := List.length_pos.mpr h
  have hidx : min ((available_containers l c r).length - 1) idx <
      (available_containers l c r).length :=
    lt_of_le_of_lt (min_le_left _ _) (Nat.sub_lt hlen Nat.one_pos)
  rw [List.getD_eq_getElem?_getD, List.getElem?_eq_getElem hidx]
  exact List.getElem_mem hidx

/-- C5: choose_container returns none exactly when all three containers
are full, and any container it returns is not full. -/
theorem choose_container_spec (rng : Rng) (l c r : ContainerState) :
    ((choose_container rng l c r).1 = none ↔
      (l.is_full = true ∧ c.is_full = true ∧ r.is_full = true)) ∧
    (∀ name, (choose_container rng l c r).1 = some name →
      (container_by_name l c r name).is_full = false) := by
  unfold choose_container
  by_cases hp : (container_by_name l c r (_pick_preferred_container rng).1).is_full = false
  · rw [if_pos hp]
    constructor
    · simp only [reduceCtorEq, false_iff]
      intro h
      rcases h with ⟨hl, hc, hr⟩
      rcases hpre : (_pick_preferred_container rng).1 with _ | _ | _ <;>
        rw [hpre] at hp <;> simp [container_by_name, hl, hc, hr] at hp
    · intro name hname
      have : name = (_pick_preferred_container rng).1 := by
        simpa using hname.symm
      rw [this]
      exact hp
  · rw [if_neg hp]
    by_cases hav : (available_containers l c r).isEmpty = true
    · rw [if_pos hav]
      have hnil : available_containers l c r = [] := List.isEmpty_iff.mp hav
      constructor
      · simp only [true_iff]
        exact (available_containers_eq_nil_iff l c r).mp hnil
      · intro name hname
        simp at hname
    · rw [if_neg hav]
      have hne : available_containers l c r ≠ [] := fun h => hav (by simp [h])
      have hmem := available_getD_mem l c r
        (Int.toNat (Rat.floor ((Rng.random (_pick_preferred_container rng).2).1 *
          (available_containers l c r).length))) hne
      have hfull : (container_by_name l c r
          ((available_containers l c r).getD
            (min ((available_containers l c r).length - 1)
              (Int.toNat (Rat.floor ((Rng.random (_pick_preferred_container rng).2).1 *
                (available_containers l c r).length)))) ContainerName.left)).is_full = false := by
        have := (List.mem_filter.mp hmem).2
        simpa using this
      constructor
      · simp only [reduceCtorEq, false_iff]
        intro h
        have := (available_containers_eq_nil_iff l c r).mpr h
        exact hne this
      · intro name hname
        simp only [Rng.choiceIdx] at hname
        have hname' : name = (available_containers l c r).getD
            (min ((available_containers l c r).length - 1)
              (Int.toNat (Rat.floor ((Rng.random (_pick_preferred_container rng).2).1 *
                (available_containers l c r).length)))) ContainerName.left := by
          simpa using hname.symm
        rw [hname']
        exact hfull

/-- Witness for choose_container_spec: all containers full gives none,
and a returned container is not full. -/
theorem choose_container_spec_witness :
    (choose_container ⟨fun _ => 0, 0⟩ ⟨100⟩ ⟨100⟩ ⟨100⟩).1 = none ∧
    (container_by_name ⟨0⟩ ⟨100⟩ ⟨100⟩ ContainerName.left).is_full = false :=
  ⟨(choose_container_spec ⟨fun _ => 0, 0⟩ ⟨100⟩ ⟨100⟩ ⟨100⟩).1.mpr (by decide),
   (choose_container_spec ⟨fun _ => 0, 0⟩ ⟨0⟩ ⟨100⟩ ⟨100⟩).2 ContainerName.left (by
     norm_num [choose_container, _pick_preferred_container, Rng.random,
       container_by_name, ContainerState.is_full])⟩

/-- Replacing one container leaves the other containers unchanged. -/
theorem setContainer_container_ne (loc : LocationState) (c o : ContainerName)
    (s : ContainerState) (h : o ≠ c) :
    (loc.setContainer c s).container o = loc.container o := by
  cases c <;> cases o <;> first | rfl | exact absurd rfl h

/-- Replacing a container stores the given state under that name. -/
theorem setContainer_container_eq (loc : LocationState) (c : ContainerName)
    (s : ContainerState) : (loc.setContainer c s).container c = s := by
  cases c <;> rfl

/-- Replacing a container keeps location id and coordinates. -/
theorem setContainer_meta (loc : LocationState) (c : ContainerName) (s : ContainerState) :
    (loc.setContainer c s).location_id = loc.location_id ∧
    (loc.setContainer c s).lat = loc.lat ∧
    (loc.setContainer c s).lon = loc.lon := by
  cases c <;> exact ⟨rfl, rfl, rfl⟩

/-- Structural case split on step_location: either nothing changes and
no deposit is reported, or one container is chosen and replaced by its
clamped increment, with the matching deposit outcome. -/
theorem step_location_cases (rng : Rng) (cfg : SimulationConfig) (loc : LocationState) :
    ((step_location rng cfg loc).1.1 = loc ∧
      ((step_location rng cfg loc).1.2).deposited = false) ∨
    (∃ c, (step_location rng cfg loc).1.1 =
        loc.setContainer c ⟨min 100 ((loc.container c).fill_pct + cfg.bag_fill_delta_pct)⟩ ∧
      (step_location rng cfg loc).1.2 =
        ⟨true, some c, some ((loc.container c).fill_pct),
          some (min 100 ((loc.container c).fill_pct + cfg.bag_fill_delta_pct))⟩) := by
  unfold step_location
  by_cases harr : (rng.random).1 < cfg.arrival_prob
  · rcases hcc : choose_container (rng.random).2 loc.left loc.center loc.right with ⟨oc, rng2⟩
    rcases oc with _ | c
    · left
      simp [harr, hcc]
    · right
      refine ⟨c, ?_⟩
      simp [harr, hcc, _apply_deposit]
  · left
    simp [harr]

/-- C6: when step_location reports a deposit, exactly the chosen
container is replaced, its new fill is min(100, old + delta), the other
containers and the location identity and coordinates are unchanged, and
the outcome carries that container with its old and new fill. -/
theorem step_location_deposit_frame (rng : Rng) (cfg : SimulationConfig) (loc : LocationState)
    (hd : ((step_location rng cfg loc).1.2).deposited = true) :
    ∃ c, (step_location rng cfg loc).1.2 =
        ⟨true, some c, some ((loc.container c).fill_pct),
          some (min 100 ((loc.container c).fill_pct + cfg.bag_fill_delta_pct))⟩ ∧
      (step_location rng cfg loc).1.1 =
        loc.setContainer c ⟨min 100 ((loc.container c).fill_pct + cfg.bag_fill_delta_pct)⟩ ∧
      ((step_location rng cfg loc).1.1).container c =
        ⟨min 100 ((loc.container c).fill_pct + cfg.bag_fill_delta_pct)⟩ ∧
      (∀ o, o ≠ c → ((step_location rng cfg loc).1.1).container o = loc.container o) ∧
      ((step_location rng cfg loc).1.1).location_id = loc.location_id ∧
      ((step_location rng cfg loc).1.1).lat = loc.lat ∧
      ((step_location rng cfg loc).1.1).lon = loc.lon := by
  rcases step_location_cases rng cfg loc with ⟨_, hnd⟩ | ⟨c, hloc, hres⟩
  · rw [hnd] at hd
    exact absurd hd (by simp)
  · refine ⟨c, hres, hloc, ?_, ?_, ?_, ?_, ?_⟩
    · rw [hloc]
      exact setContainer_container_eq loc c _
    · intro o ho
      rw [hloc]
      exact setContainer_container_ne loc c o _ ho
    · rw [hloc]
      exact (setContainer_meta loc c _).1
    · rw [hloc]
      exact (setContainer_meta loc c _).2.1
    · rw [hloc]
      exact (setContainer_meta loc c _).2.2

/-- Witness for step_location_deposit_frame: arrival probability 1 and
the all-zero stream deposit into the left container. -/
theorem step_location_deposit_frame_witness :
    ∃ c, (step_location ⟨fun _ => 0, 0⟩
        ⟨15, 1, 2, 10, false, 0, some 0, some 42, [⟨"a", 55, 12⟩]⟩
        ⟨"a", 55, 12, ⟨0⟩, ⟨0⟩, ⟨0⟩⟩).1.2 =
        ⟨true, some c,
          some ((LocationState.container ⟨"a", 55, 12, ⟨0⟩, ⟨0⟩, ⟨0⟩⟩ c).fill_pct),
          some (min 100 ((LocationState.container ⟨"a", 55, 12, ⟨0⟩, ⟨0⟩, ⟨0⟩⟩ c).fill_pct + 2))⟩ ∧
      (step_location ⟨fun _ => 0, 0⟩
        ⟨15, 1, 2, 10, false, 0, some 0, some 42, [⟨"a", 55, 12⟩]⟩
        ⟨"a", 55, 12, ⟨0⟩, ⟨0⟩, ⟨0⟩⟩).1.1 =
        LocationState.setContainer ⟨"a", 55, 12, ⟨0⟩, ⟨0⟩, ⟨0⟩⟩ c
          ⟨min 100 ((LocationState.container ⟨"a", 55, 12, ⟨0⟩, ⟨0⟩, ⟨0⟩⟩ c).fill_pct + 2)⟩ ∧
      ((step_location ⟨fun _ => 0, 0⟩
        ⟨15, 1, 2, 10, false, 0, some 0, some 42, [⟨"a", 55, 12⟩]⟩
        ⟨"a", 55, 12, ⟨0⟩, ⟨0⟩, ⟨0⟩⟩).1.1).container c =
        ⟨min 100 ((LocationState.container ⟨"a", 55, 12, ⟨0⟩, ⟨0⟩, ⟨0⟩⟩ c).fill_pct + 2)⟩ ∧
      (∀ o, o ≠ c → ((step_location ⟨fun _ => 0, 0⟩
        ⟨15, 1, 2, 10, false, 0, some 0, some 42, [⟨"a", 55, 12⟩]⟩
        ⟨"a", 55, 12, ⟨0⟩, ⟨0⟩, ⟨0⟩⟩).1.1).container o =
        LocationState.container ⟨"a", 55, 12, ⟨0⟩, ⟨0⟩, ⟨0⟩⟩ o) ∧
      ((step_location ⟨fun _ => 0, 0⟩
        ⟨15, 1, 2, 10, false, 0, some 0, some 42, [⟨"a", 55, 12⟩]⟩
        ⟨"a", 55, 12, ⟨0⟩, ⟨0⟩, ⟨0⟩⟩).1.1).location_id = "a" ∧
      ((step_location ⟨fun _ => 0, 0⟩
        ⟨15, 1, 2, 10, false, 0, some 0, some 42, [⟨"a", 55, 12⟩]⟩
        ⟨"a", 55, 12, ⟨0⟩, ⟨0⟩, ⟨0⟩⟩).1.1).lat = 55 ∧
      ((step_location ⟨fun _ => 0, 0⟩
        ⟨15, 1, 2, 10, false, 0, some 0, some 42, [⟨"a", 55, 12⟩]⟩
        ⟨"a", 55, 12, ⟨0⟩, ⟨0⟩, ⟨0⟩⟩).1.1).lon = 12 :=
  step_location_deposit_frame ⟨fun _ => 0, 0⟩
    ⟨15, 1, 2, 10, false, 0, some 0, some 42, [⟨"a", 55, 12⟩]⟩
    ⟨"a", 55, 12, ⟨0⟩, ⟨0⟩, ⟨0⟩⟩
    (by norm_num [step_location, choose_container, _pick_preferred_container,
      Rng.random, container_by_name, ContainerState.is_full, _apply_deposit])

/-- C7: with a non-negative deposit delta and container fills in
[0,100], every container fill after step_location is still in [0,100]
and at least its previous value. -/
theorem step_location_fill_invariant (rng : Rng) (cfg : SimulationConfig) (loc : LocationState)
    (hdelta : 0 ≤ cfg.bag_fill_delta_pct)
    (hin : ∀ n, 0 ≤ (loc.container n).fill_pct ∧ (loc.container n).fill_pct ≤ 100) :
    ∀ n, 0 ≤ (((step_location rng cfg loc).1.1).container n).fill_pct ∧
      (((step_location rng cfg loc).1.1).container n).fill_pct ≤ 100 ∧
      (loc.container n).fill_pct ≤ (((step_location rng cfg loc).1.1).container n).fill_pct := by
  intro n
  rcases step_location_cases rng cfg loc with ⟨hloc, _⟩ | ⟨c, hloc, _⟩
  · rw [hloc]
    exact ⟨(hin n).1, (hin n).2, le_refl _⟩
  · rw [hloc]
    by_cases hn : n = c
    · subst hn
      rw [setContainer_container_eq]
      refine ⟨?_, ?_, ?_⟩
      · exact le_min (by norm_num) (add_nonneg (hin n).1 hdelta)
      · exact min_le_left _ _
      · exact le_min (hin n).2 (le_add_of_nonneg_right hdelta)
    · rw [setContainer_container_ne loc c n _ hn]
      exact ⟨(hin n).1, (hin n).2, le_refl _⟩

/-- Witness for step_location_fill_invariant on an all-zero location
with delta 2. -/
theorem step_location_fill_invariant_witness :
    0 ≤ (((step_location ⟨fun _ => 0, 0⟩
        ⟨15, 1, 2, 10, false, 0, some 0, some 42, [⟨"a", 55, 12⟩]⟩
        ⟨"a", 55, 12, ⟨0⟩, ⟨0⟩, ⟨0⟩⟩).1.1).container ContainerName.left).fill_pct ∧
      (((step_location ⟨fun _ => 0, 0⟩
        ⟨15, 1, 2, 10, false, 0, some 0, some 42, [⟨"a", 55, 12⟩]⟩
        ⟨"a", 55, 12, ⟨0⟩, ⟨0⟩, ⟨0⟩⟩).1.1).container ContainerName.left).fill_pct ≤ 100 ∧
      ((LocationState.container ⟨"a", 55, 12, ⟨0⟩, ⟨0⟩, ⟨0⟩⟩ ContainerName.left).fill_pct ≤
        (((step_location ⟨fun _ => 0, 0⟩
        ⟨15, 1, 2, 10, false, 0, some 0, some 42, [⟨"a", 55, 12⟩]⟩
        ⟨"a", 55, 12, ⟨0⟩, ⟨0⟩, ⟨0⟩⟩).1.1).container ContainerName.left).fill_pct) :=
  step_location_fill_invariant ⟨fun _ => 0, 0⟩
    ⟨15, 1, 2, 10, false, 0, some 0, some 42, [⟨"a", 55, 12⟩]⟩
    ⟨"a", 55, 12, ⟨0⟩, ⟨0⟩, ⟨0⟩⟩
    (by decide)
    (by intro n; cases n <;> exact ⟨by decide, by decide⟩)
    ContainerName.left

/-- The preferred-container pick consumes exactly one draw. -/
theorem pick_preferred_container_rng (rng : Rng) :
    (_pick_preferred_container rng).2 = ⟨rng.stream, rng.pos + 1⟩ := by
  simp only [_pick_preferred_container, Rng.random]
  split_ifs <;> rfl

/-- choose_container consumes one draw (preferred pick) or two (pick
plus fallback choice). -/
theorem choose_container_draws (rng : Rng) (l c r : ContainerState) :
    ((choose_container rng l c r).2).pos = rng.pos + 1 ∨
    ((choose_container rng l c r).2).pos = rng.pos + 2 := by
  simp only [choose_container]
  rw [pick_preferred_container_rng rng]
  by_cases hp : (container_by_name l c r (_pick_preferred_container rng).1).is_full = false
  · rw [if_pos hp]
    exact Or.inl rfl
  · rw [if_neg hp]
    by_cases hav : (available_containers l c r).isEmpty = true
    · rw [if_pos hav]
      exact Or.inl rfl
    · rw [if_neg hav]
      exact Or.inr rfl

/-- C3 counterexample: with arrival probability 1, the constant stream
1/2 and a full center container, one call to step_location advances the
draw cursor by 3, not by at most 2. -/
theorem step_location_draws_counterexample :
    ((step_location ⟨fun _ => 1/2, 0⟩
        ⟨15, 1, 2, 10, false, 0, some 0, some 42, [⟨"a", 55, 12⟩]⟩
        ⟨"a", 55, 12, ⟨0⟩, ⟨100⟩, ⟨0⟩⟩).2).pos = 3 ∧ ¬ ((3 : Nat) ≤ 0 + 2) := by
  constructor
  · norm_num [step_location, choose_container, _pick_preferred_container, Rng.random,
      Rng.choiceIdx, container_by_name, available_containers, ContainerState.is_full,
      _apply_deposit]
  · decide

/-- C3 amended: step_location consumes between 1 and 3 draws: exactly 1
when no arrival occurs, and 2 or 3 on arrival (3 exactly when the
preferred container is full and a fallback choice is drawn). -/
theorem step_location_draws (rng : Rng) (cfg : SimulationConfig) (loc : LocationState) :
    (¬ (rng.stream rng.pos < cfg.arrival_prob) →
      ((step_location rng cfg loc).2).pos = rng.pos + 1) ∧
    ((rng.stream rng.pos < cfg.arrival_prob) →
      rng.pos + 2 ≤ ((step_location rng cfg loc).2).pos ∧
      ((step_location rng cfg loc).2).pos ≤ rng.pos + 3) := by
  constructor
  · intro h
    unfold step_location
    simp [Rng.random, h]
  · intro h
    unfold step_location
    simp only [Rng.random]
    rw [decide_eq_true h]
    simp only [Bool.true_eq_false, if_false]
    rcases hcc : choose_container ⟨rng.stream, rng.pos + 1⟩ loc.left loc.center loc.right
      with ⟨oc, rng2⟩
    have hdraws := choose_container_draws ⟨rng.stream, rng.pos + 1⟩ loc.left loc.center loc.right
    rw [hcc] at hdraws
    have hpos : (Rng.mk rng.stream (rng.pos + 1)).pos = rng.pos + 1 := rfl
    rw [hpos] at hdraws
    rcases oc with _ | c <;>
      rcases hdraws with hd | hd <;>
      exact ⟨by dsimp only [] at hd ⊢; omega, by dsimp only [] at hd ⊢; omega⟩

/-- Witness for step_location_draws: one draw without arrival, two to
three with arrival. -/
theorem step_location_draws_witness :
    ((step_location ⟨fun _ => 1, 0⟩
        ⟨15, (1 : Rat) / 2, 2, 10, false, 0, some 0, some 42, [⟨"a", 55, 12⟩]⟩
        ⟨"a", 55, 12, ⟨0⟩, ⟨0⟩, ⟨0⟩⟩).2).pos = 0 + 1 ∧
    (0 + 2 ≤ ((step_location ⟨fun _ => 0, 0⟩
        ⟨15, 1, 2, 10, false, 0, some 0, some 42, [⟨"a", 55, 12⟩]⟩
        ⟨"a", 55, 12, ⟨0⟩, ⟨0⟩, ⟨0⟩⟩).2).pos ∧
      ((step_location ⟨fun _ => 0, 0⟩
        ⟨15, 1, 2, 10, false, 0, some 0, some 42, [⟨"a", 55, 12⟩]⟩
        ⟨"a", 55, 12, ⟨0⟩, ⟨0⟩, ⟨0⟩⟩).2).pos ≤ 0 + 3) :=
  ⟨(step_location_draws ⟨fun _ => 1, 0⟩
      ⟨15, (1 : Rat) / 2, 2, 10, false, 0, some 0, some 42, [⟨"a", 55, 12⟩]⟩
      ⟨"a", 55, 12, ⟨0⟩, ⟨0⟩, ⟨0⟩⟩).1 (by norm_num),
   (step_location_draws ⟨fun _ => 0, 0⟩
      ⟨15, 1, 2, 10, false, 0, some 0, some 42, [⟨"a", 55, 12⟩]⟩
      ⟨"a", 55, 12, ⟨0⟩, ⟨0⟩, ⟨0⟩⟩).2 (by norm_num)⟩

/-- C2 counterexample: with a first sink that raises and a second sink
after it, publish re-raises and the second sink receives nothing. -/
theorem tee_publish_status_counterexample :
    (tee_publish_status [⟨fun _ => true, []⟩, ⟨fun _ => false, []⟩]
        ⟨0, "a", 55, 12, .left, 10, 0, "status"⟩).2 = true ∧
    ((tee_publish_status [⟨fun _ => true, []⟩, ⟨fun _ => false, []⟩]
        ⟨0, "a", 55, 12, .left, 10, 0, "status"⟩).1.map Sink.received) = [[], []] := by
  exact ⟨rfl, rfl⟩

/-- C2 amended: an exception in one sink of the fan-out publisher
propagates out of publish and suppresses delivery to all later sinks;
the sinks before the failing one do receive the event with unaltered
content. -/
theorem tee_publish_status_failure (pre post : List Sink) (f : Sink) (e : StatusEvent)
    (hpre : ∀ s ∈ pre, s.fails e = false) (hf : f.fails e = true) :
    tee_publish_status (pre ++ f :: post) e =
      (pre.map (fun s => sink_receive s e) ++ f :: post, true) := by
  induction pre with
  | nil =>
    simp only [List.nil_append, List.map_nil]
    unfold tee_publish_status
    rw [hf]
    simp
  | cons s rest ih =>
    have hs : s.fails e = false := hpre s (by simp)
    have hrest : ∀ x ∈ rest, x.fails e = false := fun x hx => hpre x (by simp [hx])
    simp only [List.cons_append, List.map_cons]
    unfold tee_publish_status
    rw [hs]
    simp [ih hrest]

/-- Witness for tee_publish_status_failure with one succeeding sink
before and one after the failing sink. -/
theorem tee_publish_status_failure_witness :
    tee_publish_status
        ([⟨fun _ => false, []⟩] ++ ⟨fun _ => true, []⟩ :: [⟨fun _ => false, []⟩])
        ⟨0, "a", 55, 12, .left, 10, 0, "status"⟩ =
      ([⟨fun _ => false, []⟩].map
          (fun s => sink_receive s ⟨0, "a", 55, 12, .left, 10, 0, "status"⟩) ++
        ⟨fun _ => true, []⟩ :: [⟨fun _ => false, []⟩], true) :=
  tee_publish_status_failure [⟨fun _ => false, []⟩] [⟨fun _ => false, []⟩]
    ⟨fun _ => true, []⟩ ⟨0, "a", 55, 12, .left, 10, 0, "status"⟩
    (by intro s hs; rw [List.mem_singleton] at hs; subst hs; rfl) rfl

/-- C4: with publish_every_deposit false, the driver publishes exactly
one status event per crossed boundary, and every one of those events
carries the same final new fill value (not the intermediate boundary
value), the same timestamp, the same container and the same timestep
index. -/
theorem publish_for_location_boundary_events (cfg : SimulationConfig)
    (updated : LocationState) (c : ContainerName) (old_fill new_fill ts ti : Int)
    (bs : List Int)
    (hpub : cfg.publish_every_deposit = false)
    (hbs : boundaries_crossed old_fill new_fill cfg.status_boundary_pct = .ok bs) :
    publish_for_location cfg updated ⟨true, some c, some old_fill, some new_fill⟩ ts ti =
      .ok (bs.map (fun _ => make_status_event ts updated c new_fill ti ("status"))) ∧
    (bs.map (fun _ => make_status_event ts updated c new_fill ti ("status"))).length =
      bs.length ∧
    ∀ ev ∈ bs.map (fun _ => make_status_event ts updated c new_fill ti ("status")),
      ev = make_status_event ts updated c new_fill ti ("status") := by
  refine ⟨?_, List.length_map _ _, ?_⟩
  · unfold publish_for_location
    simp [hpub, hbs]
    rfl
  · intro ev hev
    rcases List.mem_map.mp hev with ⟨x, _, hx⟩
    exact hx.symm

/-- Witness for publish_for_location_boundary_events at old=19, new=31,
boundary=10: two boundaries crossed, two identical events with the
final fill 31. -/
theorem publish_for_location_boundary_events_witness :
    publish_for_location ⟨15, 1, 2, 10, false, 0, some 0, some 42, [⟨"a", 55, 12⟩]⟩
        ⟨"a", 55, 12, ⟨0⟩, ⟨31⟩, ⟨0⟩⟩ ⟨true, some .center, some 19, some 31⟩ 7 3 =
      .ok (([20, 30] : List Int).map
        (fun _ => make_status_event 7 ⟨"a", 55, 12, ⟨0⟩, ⟨31⟩, ⟨0⟩⟩ .center 31 3 ("status"))) ∧
    ((([20, 30] : List Int).map
        (fun _ => make_status_event 7 ⟨"a", 55, 12, ⟨0⟩, ⟨31⟩, ⟨0⟩⟩ .center 31 3 ("status"))).length =
      ([20, 30] : List Int).length) ∧
    ∀ ev ∈ ([20, 30] : List Int).map
        (fun _ => make_status_event 7 ⟨"a", 55, 12, ⟨0⟩, ⟨31⟩, ⟨0⟩⟩ .center 31 3 ("status")),
      ev = make_status_event 7 ⟨"a", 55, 12, ⟨0⟩, ⟨31⟩, ⟨0⟩⟩ .center 31 3 ("status") :=
  publish_for_location_boundary_events
    ⟨15, 1, 2, 10, false, 0, some 0, some 42, [⟨"a", 55, 12⟩]⟩
    ⟨"a", 55, 12, ⟨0⟩, ⟨31⟩, ⟨0⟩⟩ .center 19 31 7 3 [20, 30] rfl rfl

/-- C10: with a fixed configured start_time and a fixed seed stream,
run_simulation publishes exactly the same event sequence regardless of
the ambient wall clock: the whole run is a pure function of the
configuration and the once-seeded random stream. -/
theorem run_simulation_deterministic (cfg : SimulationConfig) (steps : Int) (rng : Rng)
    (t now1 now2 : Int) (h : cfg.start_time = some t) :
    run_simulation cfg steps rng now1 = run_simulation cfg steps rng now2 := by
  unfold run_simulation
  rw [h]
  simp

/-- Witness for run_simulation_deterministic: a one-step configuration
with fixed start time 0, compared at wall clocks 5 and 7. -/
theorem run_simulation_deterministic_witness :
    run_simulation ⟨15, 1, 2, 10, false, 0, some 0, some 42, [⟨"a", 55, 12⟩]⟩ 1
        ⟨fun _ => 0, 0⟩ 5 =
      run_simulation ⟨15, 1, 2, 10, false, 0, some 0, some 42, [⟨"a", 55, 12⟩]⟩ 1
        ⟨fun _ => 0, 0⟩ 7 :=
  run_simulation_deterministic ⟨15, 1, 2, 10, false, 0, some 0, some 42, [⟨"a", 55, 12⟩]⟩
    1 ⟨fun _ => 0, 0⟩ 0 5 7 rfl

/-- C9 counterexample: a record whose required field location_id has the
wrong type (an integer instead of a string) is not skipped: the consumer
coerces it with str() and keeps the record, so a log holding one
well-formed record and this wrong-typed record yields two events, not
one. -/
theorem event_from_payload_counterexample :
    event_from_payload (fun _ => some 0)
      [("ts", .jstr ("t")), ("location_id", .jint 5),
       ("container", .jstr ("left")), ("fill_pct", .jint 10)] =
      some ⟨0, "5", "left", 10, 0, "status"⟩ ∧
    (consume_log (fun _ => some 0)
      [.parsed (.jobj [("payload", .jobj [("ts", .jstr ("t")), ("location_id", .jstr ("a")),
        ("container", .jstr ("left")), ("fill_pct", .jint 10)])]),
       .parsed (.jobj [("payload", .jobj [("ts", .jstr ("t")), ("location_id", .jint 5),
        ("container", .jstr ("left")), ("fill_pct", .jint 10)])])]).length = 2 := by
  exact ⟨rfl, rfl⟩

/-- C9 amended: the consumer read loop never crashes on a malformed
record: a line that is blank, unparseable, lacks a dict payload, or
whose payload makes event_from_payload raise (ts absent, not a string
or unparseable; location_id, container or fill_pct absent; fill_pct not
convertible by int()) is skipped and the remaining records are still
processed; a record whose parse succeeds is kept in order with its
parsed value — required fields of a wrong type that str() or int() can
coerce are coerced rather than skipped. -/
theorem consume_log_robust (fromiso : String → Option Int)
    (pre post : List RawLine) (b : RawLine) :
    ((line_payload b).bind (event_from_payload fromiso) = none →
      consume_log fromiso (pre ++ b :: post) = consume_log fromiso (pre ++ post)) ∧
    (∀ ev, (line_payload b).bind (event_from_payload fromiso) = some ev →
      consume_log fromiso (pre ++ b :: post) =
        consume_log fromiso pre ++ ev :: consume_log fromiso post) := by
  have hc : ∀ ls, consume_log fromiso ls =
      ls.filterMap (fun l => (line_payload l).bind (event_from_payload fromiso)) := by
    intro ls
    unfold consume_log read_jsonl_payloads
    rw [List.filterMap_filterMap]
  constructor
  · intro h
    rw [hc, hc, List.filterMap_append, List.filterMap_append]
    congr 1
    rw [List.filterMap_cons, h]
  · intro ev h
    rw [hc, hc, hc, List.filterMap_append, List.filterMap_cons, h]

/-- Witness for consume_log_robust: an unparseable line is skipped, and
a parseable record is recovered. -/
theorem consume_log_robust_witness :
    (consume_log (fun _ => some 0) ([] ++ .malformed :: []) =
      consume_log (fun _ => some 0) ([] ++ [])) ∧
    (consume_log (fun _ => some 0)
        ([] ++ (.parsed (.jobj [("payload", .jobj [("ts", .jstr ("t")),
          ("location_id", .jstr ("a")), ("container", .jstr ("left")),
          ("fill_pct", .jint 10)])])) :: []) =
      consume_log (fun _ => some 0) [] ++
        (⟨0, "a", "left", 10, 0, "status"⟩ : ParsedEvent) :: consume_log (fun _ => some 0) []) :=
  ⟨(consume_log_robust (fun _ => some 0) [] [] .malformed).1 rfl,
   (consume_log_robust (fun _ => some 0) [] []
      (.parsed (.jobj [("payload", .jobj [("ts", .jstr ("t")), ("location_id", .jstr ("a")),
        ("container", .jstr ("left")), ("fill_pct", .jint 10)])]))).2
      ⟨0, "a", "left", 10, 0, "status"⟩ rfl⟩

end RubbishSim
